import Mathlib

/-!
Verification of the client-side behavior layer of the Reshine International
website (`scripts.js` and its variant). The two stateful modules — the
testimonial `Carousel` and the `FormValidation` module (contact form and
quick-quote form) — are shallowly embedded below: DOM reads become explicit
parameters, DOM writes become fields of explicit result records, and the
JavaScript numbers involved (slide indices) become `Int`.
-/

set_option maxHeartbeats 1000000

namespace Carousel

/-- State owned by the carousel closure in `Carousel.init`:
`items.length` (fixed after init), the mutable `index`, and the
`isTransitioning` flag set during the 400ms transition window. -/
structure State where
  slideCount : Nat
  index : Int
  isTransitioning : Bool
  deriving Repr, DecidableEq

/-- `goToNext`: `if (isTransitioning || index >= items.length - 1) return;
isTransitioning = true; index++;` (the 400ms timer that clears the flag is a
separate event, `Ev.unlock`). -/
def goToNext (s : State) : State :=
  if s.isTransitioning = true ∨ (s.slideCount : Int) - 1 ≤ s.index then s
  else { s with isTransitioning := true, index := s.index + 1 }

/-- `goToPrev`: `if (isTransitioning || index <= 0) return;
isTransitioning = true; index--;` -/
def goToPrev (s : State) : State :=
  if s.isTransitioning = true ∨ s.index ≤ 0 then s
  else { s with isTransitioning := true, index := s.index - 1 }

/-- `goToSlide(i)`: `if (isTransitioning || i === index || i < 0 ||
i >= items.length) return; isTransitioning = true; index = i;` -/
def goToSlide (i : Int) (s : State) : State :=
  if s.isTransitioning = true ∨ i = s.index ∨ i < 0 ∨ (s.slideCount : Int) ≤ i then s
  else { s with isTransitioning := true, index := i }

/-- Discrete inputs that can reach the carousel closure: the three calls
(arrow clicks, dot clicks, keyboard arrows) and the `setTimeout` callback
that clears `isTransitioning` after 400ms. -/
inductive Ev where
  | next : Ev
  | prev : Ev
  | slide (i : Int) : Ev
  | unlock : Ev
  deriving Repr, DecidableEq

/-- One event applied to the carousel state. -/
def step (s : State) (e : Ev) : State :=
  match e with
  | .next => goToNext s
  | .prev => goToPrev s
  | .slide i => goToSlide i s
  | .unlock => { s with isTransitioning := false }

/-- A finite sequence of events applied in order. -/
def run (s : State) (es : List Ev) : State :=
  es.foldl step s

/-- The state built by `Carousel.init` once the track, both controls and a
nonempty item list are found: `index = 0`, `isTransitioning = false`. -/
def initialState (n : Nat) : State :=
  { slideCount := n, index := 0, isTransitioning := false }

/-- The documented data-model invariant `0 <= currentIndex < slideCount`. -/
def indexInRange (s : State) : Prop :=
  0 ≤ s.index ∧ s.index < (s.slideCount : Int)

instance (s : State) : Decidable (indexInRange s) := by
  unfold indexInRange; infer_instance

theorem step_slideCount (s : State) (e : Ev) : (step s e).slideCount = s.slideCount := by
  rcases e with _ | _ | i | _ <;>
    simp only [step, goToNext, goToPrev, goToSlide] <;> split <;> rfl

theorem step_indexInRange (s : State) (e : Ev) (h : indexInRange s) :
    indexInRange (step s e) := by
  rcases h with ⟨h0, h1⟩
  rcases e with _ | _ | i | _ <;>
    simp only [step, goToNext, goToPrev, goToSlide]
  case next => split
               · exact ⟨h0, h1⟩
               · rename_i hc; constructor <;> simp only [indexInRange] <;> omega
  case prev => split
               · exact ⟨h0, h1⟩
               · rename_i hc; constructor <;> simp only [indexInRange] <;> omega
  case slide => split
                · exact ⟨h0, h1⟩
                · rename_i hc
                  push_neg at hc
                  exact ⟨hc.2.2.1, hc.2.2.2⟩
  case unlock => exact ⟨h0, h1⟩

theorem run_indexInRange (es : List Ev) (s : State) (h : indexInRange s) :
    indexInRange (run s es) := by
  induction es generalizing s with
  | nil => exact h
  | cons e es ih => exact ih (step s e) (step_indexInRange s e h)

/-- `parseInt(getComputedStyle(track).gap) || 16`: the parsed gap when it is a
number other than 0, and the fallback 16 when parsing yields `NaN` (`none`)
or `0` (both falsy). -/
def gapValue (raw : Option Int) : Int :=
  match raw with
  | none => 16
  | some g => if g = 0 then 16 else g

/-- The DOM writes performed by one `update()` call: the track transform, the
disabled state of both controls (`updateButtons`), the active flag of each dot
(`updateDots`), and the `aria-hidden` flag of each slide. -/
structure RenderOut where
  transformX : Int
  prevDisabled : Bool
  nextDisabled : Bool
  dotActive : List Bool
  ariaHidden : List Bool
  deriving Repr, DecidableEq

/-- `update()`: reads `items[0].offsetWidth` and the track gap live, sets
`translateX(${-index * width}px)` with `width = itemWidth + gap`, then runs
`updateButtons`, `updateDots`, and the `aria-hidden` loop over the items. -/
def update (s : State) (itemWidth : Int) (gapRaw : Option Int) : RenderOut :=
  let width := itemWidth + gapValue gapRaw
  { transformX := -s.index * width
  , prevDisabled := s.index == 0
  , nextDisabled := s.index == (s.slideCount : Int) - 1
  , dotActive := (List.range s.slideCount).map (fun i => Int.ofNat i == s.index)
  , ariaHidden := (List.range s.slideCount).map (fun i => Int.ofNat i != s.index) }

/-- Presence of the DOM elements `Carousel.init` queries, and the number of
children of the track. -/
structure Dom where
  track : Bool
  prevBtn : Bool
  nextBtn : Bool
  itemCount : Nat
  deriving Repr, DecidableEq

/-- The guard clauses of `Carousel.init`: `if (!track) return;`,
`if (!prev || !next) return;`, `if (items.length === 0) return;` — `none`
models the early return (no listeners installed, nothing thrown). -/
def init (d : Dom) : Option State :=
  if !d.track then none
  else if !d.prevBtn || !d.nextBtn then none
  else if d.itemCount = 0 then none
  else some (initialState d.itemCount)

end Carousel

/-- Claim C1: for every carousel with `slideCount >= 1` starting at
`currentIndex = 0`, after any finite sequence of `goToNext`, `goToPrev` and
`goToSlide(i)` calls (with arbitrary integer arguments, and with the 400ms
lock-release timer firing at arbitrary points), `currentIndex` stays in
`[0, slideCount - 1]`. -/
theorem carousel_index_always_in_bounds (n : Nat) (es : List Carousel.Ev)
    (h : 1 ≤ n) : Carousel.indexInRange (Carousel.run (Carousel.initialState n) es) := by
  apply Carousel.run_indexInRange
  constructor
  · simp [Carousel.initialState]
  · simp [Carousel.initialState]; omega

theorem carousel_index_always_in_bounds_witness :
    Carousel.indexInRange
      (Carousel.run (Carousel.initialState 3)
        [Carousel.Ev.prev, Carousel.Ev.next, Carousel.Ev.unlock,
         Carousel.Ev.slide 7, Carousel.Ev.slide 2, Carousel.Ev.unlock,
         Carousel.Ev.slide (-1), Carousel.Ev.next, Carousel.Ev.prev]) :=
  carousel_index_always_in_bounds 3 _ (by decide)

/-- Claim C5: while `isTransitioning` is set, `goToNext`, `goToPrev` and
`goToSlide` all leave the state unchanged (inputs are dropped, not queued);
moreover, on a 3-slide carousel at index 0, `goToPrev()` is a no-op and two
`goToNext()` calls before the lock clears end at index 1, not 2. -/
theorem carousel_lock_drops_inputs (s : Carousel.State) (i : Int)
    (h : s.isTransitioning = true) :
    (Carousel.goToNext s = s ∧ Carousel.goToPrev s = s ∧ Carousel.goToSlide i s = s) ∧
    Carousel.goToPrev (Carousel.initialState 3) = Carousel.initialState 3 ∧
    (Carousel.run (Carousel.initialState 3)
      [Carousel.Ev.prev, Carousel.Ev.next, Carousel.Ev.next]).index = 1 := by
  refine ⟨⟨?_, ?_, ?_⟩, by decide, by decide⟩ <;>
    simp [Carousel.goToNext, Carousel.goToPrev, Carousel.goToSlide, h]

theorem carousel_lock_drops_inputs_witness :
    Carousel.goToNext { slideCount := 3, index := 0, isTransitioning := true } =
      { slideCount := 3, index := 0, isTransitioning := true } :=
  (carousel_lock_drops_inputs { slideCount := 3, index := 0, isTransitioning := true }
    0 rfl).1.1

/-- Claim C6: `render()` (the `update` function) sets the horizontal offset to
`-currentIndex * (itemWidth + gap)`; disables the prev control exactly at
index 0 and the next control exactly at index `slideCount - 1` (no
wraparound); marks the dot at `currentIndex` as the single active indicator;
and hides exactly the non-active slides from assistive technology. -/
theorem carousel_update_renders_state (s : Carousel.State) (itemWidth : Int)
    (gapRaw : Option Int) (h : Carousel.indexInRange s) :
    (Carousel.update s itemWidth gapRaw).transformX
        = -s.index * (itemWidth + Carousel.gapValue gapRaw)
    ∧ ((Carousel.update s itemWidth gapRaw).prevDisabled = true ↔ s.index = 0)
    ∧ ((Carousel.update s itemWidth gapRaw).nextDisabled = true
        ↔ s.index = (s.slideCount : Int) - 1)
    ∧ (Carousel.update s itemWidth gapRaw).dotActive.length = s.slideCount
    ∧ (∀ i : Nat, i < s.slideCount →
        ((Carousel.update s itemWidth gapRaw).dotActive[i]? = some true
          ↔ (i : Int) = s.index))
    ∧ (Carousel.update s itemWidth gapRaw).dotActive[s.index.toNat]? = some true
    ∧ (∀ i : Nat, i < s.slideCount →
        ((Carousel.update s itemWidth gapRaw).ariaHidden[i]? = some true
          ↔ (i : Int) ≠ s.index)) := by
  refine ⟨rfl, ?_, ?_, ?_, ?_, ?_, ?_⟩
  · simp [Carousel.update]
  · simp [Carousel.update]
  · simp only [Carousel.update, List.length_map, List.length_range]
  · intro i hi
    simp only [Carousel.update, List.getElem?_map, List.getElem?_range hi,
      Option.map_some', Option.some.injEq, beq_iff_eq, Int.ofNat_eq_natCast]
  · rcases h with ⟨h0, h1⟩
    have hlt : s.index.toNat < s.slideCount := by omega
    simp only [Carousel.update, List.getElem?_map, List.getElem?_range hlt,
      Option.map_some', Option.some.injEq, beq_iff_eq, Int.ofNat_eq_natCast]
    omega
  · intro i hi
    simp only [Carousel.update, List.getElem?_map, List.getElem?_range hi,
      Option.map_some', Option.some.injEq, bne_iff_ne, Int.ofNat_eq_natCast]

theorem carousel_update_renders_state_witness :
    (Carousel.update { slideCount := 3, index := 1, isTransitioning := false }
      200 (some 24)).transformX = -1 * (200 + Carousel.gapValue (some 24)) :=
  (carousel_update_renders_state
    { slideCount := 3, index := 1, isTransitioning := false } 200 (some 24)
    (by decide)).1

namespace FormValidation

/-- The whitespace class of JavaScript (`String.prototype.trim` and the `\s`
regex class), restricted to the control/ASCII characters relevant here. -/
def isWs (c : Char) : Bool :=
  c == ' ' || c == '\t' || c == '\n' || c == '\r' || c == '\x0b' || c == '\x0c'

/-- `field.value.trim()`: strip leading and trailing whitespace. -/
def jsTrim (s : List Char) : List Char :=
  ((s.dropWhile isWs).reverse.dropWhile isWs).reverse

/-- The email regex `/^[^\s@]+@[^\s@]+\.[^\s@]+$/` as a decision procedure:
the string has no whitespace, exactly one `@` with a nonempty local part, and
the part after the `@` contains a `.` that is neither its first nor its last
character (both `[^\s@]+` blocks around the `.` are nonempty; they may
themselves contain further dots). -/
def emailTest (s : List Char) : Bool :=
  s.all (fun c => !isWs c) &&
    match s.splitOn '@' with
    | [l, r] => !l.isEmpty && (r.drop 1).dropLast.contains '.'
    | _ => false

/-- One rule object from the `rules` literals: absent properties are the
defaults (`none`, `""`, `0`), matching `undefined`/falsy lookups. -/
structure Rules where
  required : Option String := none
  pattern : Option (List Char → Bool) := none
  patternError : String := ""
  minLength : Nat := 0
  minLengthError : String := ""

/-- `rules.pattern && !rules.pattern.test(value)`: false when no pattern rule
is present. -/
def patFails (p : Option (List Char → Bool)) (v : List Char) : Bool :=
  match p with
  | some t => !t v
  | none => false

/-- The per-field DOM state written by `showError`: the error element's text
and the field's `aria-invalid` attribute (set exactly when the message is a
truthy, i.e. nonempty, string). -/
structure FieldState where
  message : String
  ariaInvalid : Bool
  deriving Repr, DecidableEq

/-- `showError(field, message)`: writes the message and toggles
`aria-invalid`/`error-field` according to the message's truthiness. -/
def showError (message : String) : FieldState :=
  { message := message, ariaInvalid := message != "" }

/-- `validateField(field, rules)`: trims the value, then checks required-ness,
pattern, and minimum length in that order, stopping at the first failing rule
with its message; clears the message when no rule fails. -/
def validateField (value : List Char) (rules : Rules) : Bool × FieldState :=
  if rules.required.isSome = true ∧ jsTrim value = [] then
    (false, showError (rules.required.getD ""))
  else if jsTrim value ≠ [] ∧ patFails rules.pattern (jsTrim value) = true then
    (false, showError rules.patternError)
  else if jsTrim value ≠ [] ∧ rules.minLength ≠ 0
      ∧ (jsTrim value).length < rules.minLength then
    (false, showError rules.minLengthError)
  else
    (true, showError "")

/-- Contact form `rules.name`. -/
def contactNameRules : Rules :=
  { required := some "Please enter your name" }

/-- Contact form `rules.email`. -/
def contactEmailRules : Rules :=
  { required := some "Please enter your email"
  , pattern := some emailTest
  , patternError := "Please enter a valid email address" }

/-- Contact form `rules.message`. -/
def contactMessageRules : Rules :=
  { required := some "Please enter a message"
  , minLength := 10
  , minLengthError := "Message must be at least 10 characters" }

/-- Quote form `rules['quote-type']`. -/
def quoteTypeRules : Rules :=
  { required := some "Please select a service type" }

/-- Quote form `rules['quote-port']`. -/
def quotePortRules : Rules :=
  { required := some "Please select a port/location" }

/-- Quote form `rules['quote-name']`. -/
def quoteNameRules : Rules :=
  { required := some "Please enter your name" }

/-- Quote form `rules['quote-phone']`. -/
def quotePhoneRules : Rules :=
  { required := some "Please enter your phone number" }

/-- Quote form `rules['quote-email']`. -/
def quoteEmailRules : Rules :=
  { required := some "Please enter your email"
  , pattern := some emailTest
  , patternError := "Please enter a valid email address" }

end FormValidation

namespace FormValidation

/-- Presence of the DOM elements `initContactForm` queries. -/
structure ContactDom where
  form : Bool
  nameField : Bool
  emailField : Bool
  messageField : Bool
  submitBtn : Bool
  successEl : Bool
  deriving Repr, DecidableEq

/-- The guard clauses of `initContactForm`: `if (!form) return;` and
`if (!name || !email || !message || !submitBtn || !success) return;` —
`none` models the early return (no listeners installed, nothing thrown). -/
def initContactForm (d : ContactDom) : Option Unit :=
  if !d.form then none
  else if !d.nameField || !d.emailField || !d.messageField || !d.submitBtn || !d.successEl then
    none
  else some ()

/-- Presence of the DOM elements `initQuickQuoteForm` queries. -/
structure QuoteDom where
  form : Bool
  typeField : Bool
  portField : Bool
  nameField : Bool
  phoneField : Bool
  emailField : Bool
  detailsField : Bool
  submitBtn : Bool
  deriving Repr, DecidableEq

/-- The guard clauses of `initQuickQuoteForm`: `if (!form) return;` and
`if (!type || !port || !name || !phone || !email || !submitBtn) return;` —
note that `details` (the `quote-details` element) is queried but not part of
the guard. -/
def initQuickQuoteForm (d : QuoteDom) : Option Unit :=
  if !d.form then none
  else if !d.typeField || !d.portField || !d.nameField || !d.phoneField
      || !d.emailField || !d.submitBtn then
    none
  else some ()

/-- The submit handler's read of the additional-details element,
`details.value || 'N/A'`: when the `quote-details` element is absent
(`details` is `null`), the property access throws a `TypeError`, modelled by
`none`. -/
def detailsValueRead (present : Bool) (v : List Char) : Option (List Char) :=
  if present then some (if v = [] then "N/A".data else v) else none

/-- `querySelector('[aria-invalid="true"]')` over the form's fields in
document order: index of the first field whose state has `aria-invalid`. -/
def firstInvalid (states : List FieldState) : Option Nat :=
  states.findIdx? (fun st => st.ariaInvalid)

/-- The contact-form message body,
`` `Name: ${name}\nEmail: ${email}\n\nMessage:\n${message}` ``. -/
def contactBody (nameV emailV messageV : List Char) : List Char :=
  "Name: ".data ++ nameV ++ "\nEmail: ".data ++ emailV
    ++ "\n\nMessage:\n".data ++ messageV

/-- The quote-form message body: all fields verbatim except the details
block, which is `details.value || 'N/A'`. -/
def quoteBody (typeV portV nameV phoneV emailV detailsV : List Char) : List Char :=
  "Service Type: ".data ++ typeV ++ "\nPort/Location: ".data ++ portV
    ++ "\n\nName: ".data ++ nameV ++ "\nPhone: ".data ++ phoneV
    ++ "\nEmail: ".data ++ emailV ++ "\n\nAdditional Details:\n".data
    ++ (if detailsV = [] then "N/A".data else detailsV)

/-- Modelled from the spec's words for the round-trip claim (the decoded
fallback text "reproduces exactly the ... quote fields entered by the user,
newline-for-newline"): the same template as `quoteBody` but with the
details block reproduced verbatim, with no `'N/A'` substitution. -/
def quoteBodyVerbatim (typeV portV nameV phoneV emailV detailsV : List Char) : List Char :=
  "Service Type: ".data ++ typeV ++ "\nPort/Location: ".data ++ portV
    ++ "\n\nName: ".data ++ nameV ++ "\nPhone: ".data ++ phoneV
    ++ "\nEmail: ".data ++ emailV ++ "\n\nAdditional Details:\n".data
    ++ detailsV

end FormValidation

namespace FormValidation

/-- Characters `encodeURIComponent` leaves unescaped — the ECMAScript
`uriUnescaped` set (letters, digits, and the nine marks at code points
33, 39, 40, 41, 42, 45, 46, 95, 126). -/
def isUriUnescaped (c : Char) : Bool :=
  (65 ≤ c.toNat && c.toNat ≤ 90) || (97 ≤ c.toNat && c.toNat ≤ 122) ||
    (48 ≤ c.toNat && c.toNat ≤ 57) || c.toNat == 45 || c.toNat == 95 ||
    c.toNat == 46 || c.toNat == 33 || c.toNat == 126 || c.toNat == 42 ||
    c.toNat == 39 || c.toNat == 40 || c.toNat == 41

/-- The UTF-8 bytes of one code point. -/
def utf8Bytes (c : Char) : List Nat :=
  if c.toNat < 0x80 then [c.toNat]
  else if c.toNat < 0x800 then
    [0xC0 + c.toNat / 64, 0x80 + c.toNat % 64]
  else if c.toNat < 0x10000 then
    [0xE0 + c.toNat / 4096, 0x80 + (c.toNat / 64) % 64, 0x80 + c.toNat % 64]
  else
    [0xF0 + c.toNat / 262144, 0x80 + (c.toNat / 4096) % 64,
     0x80 + (c.toNat / 64) % 64, 0x80 + c.toNat % 64]

/-- Uppercase hex digit of a value below 16 (code point 48 + n for digits,
55 + n for the letters A–F). -/
def hexDigitChar (n : Nat) : Char :=
  if n < 10 then Char.ofNat (48 + n) else Char.ofNat (55 + n)

/-- `%XY` escape of one byte. -/
def percentByte (b : Nat) : List Char :=
  ['%', hexDigitChar (b / 16), hexDigitChar (b % 16)]

/-- Escaping of one character under `encodeURIComponent`. -/
def encodeChar (c : Char) : List Char :=
  if isUriUnescaped c then [c] else (utf8Bytes c).flatMap percentByte

/-- Model of the ECMAScript `encodeURIComponent` builtin used to build the
`mailto:`/webmail URLs and the fallback body. -/
def encodeURIComponent (s : List Char) : List Char :=
  s.flatMap encodeChar

/-- Numeric value of a hex digit (both letter cases accepted), `none` for
any other character; stated over the code point. -/
def hexVal (c : Char) : Option Nat :=
  if 48 ≤ c.toNat ∧ c.toNat ≤ 57 then some (c.toNat - 48)
  else if 65 ≤ c.toNat ∧ c.toNat ≤ 70 then some (c.toNat - 55)
  else if 97 ≤ c.toNat ∧ c.toNat ≤ 102 then some (c.toNat - 87)
  else none

/-- One decoded unit of a percent-encoded string: a character that was left
as-is, or the byte value of one `%XY` escape. -/
def percentUnescape : List Char → Option (List (Sum Char Nat))
  | [] => some []
  | c :: rest =>
    if c = '%' then
      match rest with
      | h :: l :: rest' =>
        match hexVal h, hexVal l with
        | some hv, some lv => (percentUnescape rest').map (Sum.inr (hv * 16 + lv) :: ·)
        | _, _ => none
      | _ => none
    else (percentUnescape rest).map (Sum.inl c :: ·)

/-- Whether a byte is a UTF-8 continuation byte (`10xxxxxx`). -/
def isContByte (b : Nat) : Bool :=
  0x80 ≤ b && b < 0xC0

/-- Consume one UTF-8 continuation byte (`10xxxxxx`) from the unit stream,
returning its 6 payload bits. -/
def takeContByte : List (Sum Char Nat) → Option (Nat × List (Sum Char Nat))
  | Sum.inr b :: rest => if isContByte b then some (b - 0x80, rest) else none
  | _ => none

theorem takeContByte_length (l : List (Sum Char Nat)) (v : Nat)
    (r : List (Sum Char Nat)) (h : takeContByte l = some (v, r)) :
    r.length + 1 = l.length := by
  match l with
  | [] => simp [takeContByte] at h
  | Sum.inl c :: rest => simp [takeContByte] at h
  | Sum.inr b :: rest =>
    simp only [takeContByte] at h
    split at h
    · obtain ⟨-, rfl⟩ := Prod.mk.injEq .. ▸ Option.some.injEq .. ▸ h
      simp
    · exact absurd h (by simp)

/-- UTF-8 reassembly of the unescaped units: pass-through characters stay,
escape bytes are grouped into code points; malformed sequences, overlong
encodings, surrogates and out-of-range values yield `none` (`URIError`). -/
def utf8Assemble : List (Sum Char Nat) → Option (List Char)
  | [] => some []
  | Sum.inl c :: rest => (utf8Assemble rest).map (c :: ·)
  | Sum.inr b1 :: rest =>
    if b1 < 0x80 then (utf8Assemble rest).map (Char.ofNat b1 :: ·)
    else if 0xC2 ≤ b1 ∧ b1 < 0xE0 then
      match h2 : takeContByte rest with
      | some (v2, rest2) =>
        (utf8Assemble rest2).map (Char.ofNat ((b1 - 0xC0) * 64 + v2) :: ·)
      | none => none
    else if 0xE0 ≤ b1 ∧ b1 < 0xF0 then
      match h2 : takeContByte rest with
      | some (v2, rest2) =>
        match h3 : takeContByte rest2 with
        | some (v3, rest3) =>
          if 0x800 ≤ (b1 - 0xE0) * 4096 + v2 * 64 + v3
              ∧ ((b1 - 0xE0) * 4096 + v2 * 64 + v3 < 0xD800
                ∨ 0xE000 ≤ (b1 - 0xE0) * 4096 + v2 * 64 + v3) then
            (utf8Assemble rest3).map
              (Char.ofNat ((b1 - 0xE0) * 4096 + v2 * 64 + v3) :: ·)
          else none
        | none => none
      | none => none
    else if 0xF0 ≤ b1 ∧ b1 < 0xF5 then
      match h2 : takeContByte rest with
      | some (v2, rest2) =>
        match h3 : takeContByte rest2 with
        | some (v3, rest3) =>
          match h4 : takeContByte rest3 with
          | some (v4, rest4) =>
            if 0x10000 ≤ (b1 - 0xF0) * 262144 + v2 * 4096 + v3 * 64 + v4
                ∧ (b1 - 0xF0) * 262144 + v2 * 4096 + v3 * 64 + v4 < 0x110000 then
              (utf8Assemble rest4).map
                (Char.ofNat ((b1 - 0xF0) * 262144 + v2 * 4096 + v3 * 64 + v4) :: ·)
            else none
          | none => none
        | none => none
      | none => none
    else none
termination_by l => l.length
decreasing_by
  all_goals simp only [List.length_cons]
  all_goals first
  | omega
  | (have h2' := takeContByte_length _ _ _ h2; omega)
  | (have h2' := takeContByte_length _ _ _ h2
     have h3' := takeContByte_length _ _ _ h3
     omega)
  | (have h2' := takeContByte_length _ _ _ h2
     have h3' := takeContByte_length _ _ _ h3
     have h4' := takeContByte_length _ _ _ h4
     omega)

/-- Model of the ECMAScript `decodeURIComponent` builtin applied to the
composed body when rendering the fallback copy block. -/
def decodeURIComponent (s : List Char) : Option (List Char) :=
  (percentUnescape s).bind utf8Assemble

end FormValidation

namespace FormValidation

/-- The unescaped units produced by one encoded character. -/
def encUnits (c : Char) : List (Sum Char Nat) :=
  if isUriUnescaped c then [Sum.inl c] else (utf8Bytes c).map Sum.inr

theorem hexVal_hexDigitChar (d : Nat) (hd : d < 16) :
    hexVal (hexDigitChar d) = some d := by
  interval_cases d <;> decide

theorem isUriUnescaped_ne_percent (c : Char) (h : isUriUnescaped c = true) :
    c ≠ '%' := by
  intro he
  rw [he] at h
  exact absurd h (by decide)

theorem percentUnescape_cons_plain (c : Char) (r : List Char) (hc : c ≠ '%') :
    percentUnescape (c :: r) = (percentUnescape r).map (Sum.inl c :: ·) := by
  match r with
  | [] => simp [percentUnescape, hc]
  | [x] => simp [percentUnescape, hc]
  | x :: y :: r' => simp [percentUnescape, hc]

theorem percentUnescape_cons_percent (h l : Char) (r : List Char) (x y : Nat)
    (hh : hexVal h = some x) (hl : hexVal l = some y) :
    percentUnescape ('%' :: h :: l :: r)
      = (percentUnescape r).map (Sum.inr (x * 16 + y) :: ·) := by
  simp [percentUnescape, hh, hl]

theorem percentUnescape_percentByte (b : Nat) (hb : b < 256) (r : List Char) :
    percentUnescape (percentByte b ++ r)
      = (percentUnescape r).map (Sum.inr b :: ·) := by
  have h1 : hexVal (hexDigitChar (b / 16)) = some (b / 16) :=
    hexVal_hexDigitChar _ (by omega)
  have h2 : hexVal (hexDigitChar (b % 16)) = some (b % 16) :=
    hexVal_hexDigitChar _ (by omega)
  have hb' : b / 16 * 16 + b % 16 = b := by omega
  simpa [percentByte, hb'] using
    percentUnescape_cons_percent (hexDigitChar (b / 16)) (hexDigitChar (b % 16))
      r (b / 16) (b % 16) h1 h2

theorem percentUnescape_bytes (bs : List Nat) (hbs : ∀ b ∈ bs, b < 256)
    (r : List Char) :
    percentUnescape (bs.flatMap percentByte ++ r)
      = (percentUnescape r).map (fun u => bs.map Sum.inr ++ u) := by
  induction bs with
  | nil => simp
  | cons b bs ih =>
    have hb : b < 256 := hbs b (List.mem_cons_self b bs)
    have hbs' : ∀ x ∈ bs, x < 256 := fun x hx => hbs x (List.mem_cons_of_mem b hx)
    rw [List.flatMap_cons, List.append_assoc,
      percentUnescape_percentByte b hb, ih hbs']
    cases percentUnescape r <;> simp

theorem char_valid_nat (c : Char) :
    c.toNat < 0xD800 ∨ (0xE000 ≤ c.toNat ∧ c.toNat < 0x110000) :=
  c.valid

theorem utf8Bytes_lt (c : Char) : ∀ b ∈ utf8Bytes c, b < 256 := by
  intro b hb
  have hv := char_valid_nat c
  unfold utf8Bytes at hb
  split at hb <;> [skip; split at hb] <;> [skip; skip; split at hb] <;>
    simp only [List.mem_cons, List.mem_singleton, List.not_mem_nil] at hb <;>
    rcases hb with rfl | hb <;> first | omega | (rcases hb with rfl | hb) <;>
    first | omega | (rcases hb with rfl | hb) <;> first | omega | (rcases hb with rfl | hb) <;>
    first | omega | cases hb

theorem percentUnescape_encodeChar (c : Char) (r : List Char) :
    percentUnescape (encodeChar c ++ r)
      = (percentUnescape r).map (fun u => encUnits c ++ u) := by
  by_cases hc : isUriUnescaped c = true
  · rw [encodeChar, if_pos hc, encUnits, if_pos hc]
    have := percentUnescape_cons_plain c r (isUriUnescaped_ne_percent c hc)
    simpa using this
  · rw [encodeChar, if_neg hc, encUnits, if_neg hc]
    exact percentUnescape_bytes (utf8Bytes c) (utf8Bytes_lt c) r

end FormValidation

namespace FormValidation

theorem utf8Assemble_inl (c : Char) (u : List (Sum Char Nat)) :
    utf8Assemble (Sum.inl c :: u) = (utf8Assemble u).map (c :: ·) := by
  rw [utf8Assemble]

theorem takeContByte_cont (m : Nat) (hm : m < 64) (u : List (Sum Char Nat)) :
    takeContByte (Sum.inr (0x80 + m) :: u) = some (m, u) := by
  rw [takeContByte, if_pos]
  · rw [Option.some.injEq, Prod.mk.injEq]
    exact ⟨by omega, rfl⟩
  · simp only [isContByte, Bool.and_eq_true, decide_eq_true_eq]
    omega

theorem utf8Assemble_bytes (c : Char) (u : List (Sum Char Nat)) :
    utf8Assemble ((utf8Bytes c).map Sum.inr ++ u) = (utf8Assemble u).map (c :: ·) := by
  have hval := char_valid_nat c
  by_cases h1 : c.toNat < 0x80
  · rw [utf8Bytes, if_pos h1]
    simp only [List.map_cons, List.map_nil, List.cons_append, List.nil_append]
    rw [utf8Assemble, if_pos h1, Char.ofNat_toNat]
  · by_cases hb2 : c.toNat < 0x800
    · rw [utf8Bytes, if_neg h1, if_pos hb2]
      simp only [List.map_cons, List.map_nil, List.cons_append, List.nil_append]
      rw [utf8Assemble]
      rw [if_neg (by omega), if_pos (by omega)]
      have hcont := takeContByte_cont (c.toNat % 64) (by omega) u
      split
      · rename_i v2 rest2 heq
        rw [hcont] at heq
        obtain ⟨rfl, rfl⟩ : v2 = c.toNat % 64 ∧ rest2 = u := by
          rw [Option.some.injEq, Prod.mk.injEq] at heq
          exact ⟨heq.1.symm, heq.2.symm⟩
        have hn : (0xC0 + c.toNat / 64 - 0xC0) * 64 + c.toNat % 64 = c.toNat := by omega
        rw [hn, Char.ofNat_toNat]
      · rename_i heq
        rw [hcont] at heq
        exact absurd heq (by simp)
    · by_cases hb3 : c.toNat < 0x10000
      · rw [utf8Bytes, if_neg h1, if_neg hb2, if_pos hb3]
        simp only [List.map_cons, List.map_nil, List.cons_append, List.nil_append]
        rw [utf8Assemble]
        rw [if_neg (by omega), if_neg (by omega), if_pos (by omega)]
        have hcont2 := takeContByte_cont ((c.toNat / 64) % 64) (by omega)
          (Sum.inr (0x80 + c.toNat % 64) :: u)
        split
        · rename_i v2 rest2 heq2
          rw [hcont2] at heq2
          obtain ⟨rfl, rfl⟩ :
              v2 = (c.toNat / 64) % 64 ∧ rest2 = Sum.inr (0x80 + c.toNat % 64) :: u := by
            rw [Option.some.injEq, Prod.mk.injEq] at heq2
            exact ⟨heq2.1.symm, heq2.2.symm⟩
          have hcont3 := takeContByte_cont (c.toNat % 64) (by omega) u
          split
          · rename_i v3 rest3 heq3
            rw [hcont3] at heq3
            obtain ⟨rfl, rfl⟩ : v3 = c.toNat % 64 ∧ rest3 = u := by
              rw [Option.some.injEq, Prod.mk.injEq] at heq3
              exact ⟨heq3.1.symm, heq3.2.symm⟩
            rw [if_pos (by omega)]
            have hn : (0xE0 + c.toNat / 4096 - 0xE0) * 4096
                + (c.toNat / 64) % 64 * 64 + c.toNat % 64 = c.toNat := by omega
            rw [hn, Char.ofNat_toNat]
          · rename_i heq3
            rw [hcont3] at heq3
            exact absurd heq3 (by simp)
        · rename_i heq2
          rw [hcont2] at heq2
          exact absurd heq2 (by simp)
      · have hub : c.toNat < 0x110000 := by omega
        rw [utf8Bytes, if_neg h1, if_neg hb2, if_neg hb3]
        simp only [List.map_cons, List.map_nil, List.cons_append, List.nil_append]
        rw [utf8Assemble]
        rw [if_neg (by omega), if_neg (by omega), if_neg (by omega), if_pos (by omega)]
        have hcont2 := takeContByte_cont ((c.toNat / 4096) % 64) (by omega)
          (Sum.inr (0x80 + (c.toNat / 64) % 64) :: Sum.inr (0x80 + c.toNat % 64) :: u)
        split
        · rename_i v2 rest2 heq2
          rw [hcont2] at heq2
          obtain ⟨rfl, rfl⟩ : v2 = (c.toNat / 4096) % 64
              ∧ rest2 = Sum.inr (0x80 + (c.toNat / 64) % 64)
                  :: Sum.inr (0x80 + c.toNat % 64) :: u := by
            rw [Option.some.injEq, Prod.mk.injEq] at heq2
            exact ⟨heq2.1.symm, heq2.2.symm⟩
          have hcont3 := takeContByte_cont ((c.toNat / 64) % 64) (by omega)
            (Sum.inr (0x80 + c.toNat % 64) :: u)
          split
          · rename_i v3 rest3 heq3
            rw [hcont3] at heq3
            obtain ⟨rfl, rfl⟩ :
                v3 = (c.toNat / 64) % 64 ∧ rest3 = Sum.inr (0x80 + c.toNat % 64) :: u := by
              rw [Option.some.injEq, Prod.mk.injEq] at heq3
              exact ⟨heq3.1.symm, heq3.2.symm⟩
            have hcont4 := takeContByte_cont (c.toNat % 64) (by omega) u
            split
            · rename_i v4 rest4 heq4
              rw [hcont4] at heq4
              obtain ⟨rfl, rfl⟩ : v4 = c.toNat % 64 ∧ rest4 = u := by
                rw [Option.some.injEq, Prod.mk.injEq] at heq4
                exact ⟨heq4.1.symm, heq4.2.symm⟩
              rw [if_pos (by omega)]
              have hn : (0xF0 + c.toNat / 262144 - 0xF0) * 262144
                  + (c.toNat / 4096) % 64 * 4096
                  + (c.toNat / 64) % 64 * 64 + c.toNat % 64 = c.toNat := by omega
              rw [hn, Char.ofNat_toNat]
            · rename_i heq4
              rw [hcont4] at heq4
              exact absurd heq4 (by simp)
          · rename_i heq3
            rw [hcont3] at heq3
            exact absurd heq3 (by simp)
        · rename_i heq2
          rw [hcont2] at heq2
          exact absurd heq2 (by simp)

theorem utf8Assemble_encUnits (c : Char) (u : List (Sum Char Nat)) :
    utf8Assemble (encUnits c ++ u) = (utf8Assemble u).map (c :: ·) := by
  by_cases hc : isUriUnescaped c = true
  · rw [encUnits, if_pos hc]
    simpa using utf8Assemble_inl c u
  · rw [encUnits, if_neg hc]
    exact utf8Assemble_bytes c u

theorem decodeURIComponent_encodeChar (c : Char) (r : List Char) :
    decodeURIComponent (encodeChar c ++ r) = (decodeURIComponent r).map (c :: ·) := by
  rw [decodeURIComponent, decodeURIComponent, percentUnescape_encodeChar]
  cases h : percentUnescape r with
  | none => simp
  | some u =>
    simp only [Option.map_some', Option.some_bind]
    exact utf8Assemble_encUnits c u

/-- Decoding inverts encoding: `decodeURIComponent(encodeURIComponent(s))`
recovers `s` exactly, for every string. -/
theorem decodeURIComponent_encodeURIComponent (s : List Char) :
    decodeURIComponent (encodeURIComponent s) = some s := by
  induction s with
  | nil =>
    simp [encodeURIComponent, decodeURIComponent, percentUnescape, utf8Assemble]
  | cons c s ih =>
    rw [encodeURIComponent, List.flatMap_cons]
    have : s.flatMap encodeChar = encodeURIComponent s := rfl
    rw [this, decodeURIComponent_encodeChar, ih, Option.map_some']

end FormValidation

namespace FormValidation

theorem validateField_ariaInvalid (value : List Char) (rules : Rules)
    (h1 : ∀ m, rules.required = some m → m ≠ "")
    (h2 : rules.pattern.isSome = true → rules.patternError ≠ "")
    (h3 : rules.minLength ≠ 0 → rules.minLengthError ≠ "") :
    (validateField value rules).2.ariaInvalid = !(validateField value rules).1 := by
  unfold validateField
  split_ifs with hc1 hc2 hc3
  · obtain ⟨m, hm⟩ := Option.isSome_iff_exists.mp hc1.1
    simp [showError, hm, h1 m hm]
  · have hps : rules.pattern.isSome = true := by
      rcases hp : rules.pattern with _ | t
      · rw [hp] at hc2
        simp [patFails] at hc2
      · simp
    simp [showError, h2 hps]
  · simp [showError, h3 hc3.2.1]
  · simp [showError]

/-- The observable outcome of one contact-form submit event: the three field
states written by validation, whether the handler entered the processing
branch (`submitBtn.disabled = true`, label `'Processing...'`), which field
got focus on failure (position in document order), and the
percent-encoded body composed for the `mailto:` URL and fallback panel. -/
structure ContactSubmit where
  nameStatus : FieldState
  emailStatus : FieldState
  messageStatus : FieldState
  processing : Bool
  focusTarget : Option Nat
  composedBody : Option (List Char)
  deriving Repr, DecidableEq

/-- The contact form's submit handler: validates all three fields (each
`isValid = validateField(f, rules) && isValid` evaluates `validateField`
before the conjunction, so no field is skipped), focuses the first
`[aria-invalid="true"]` field and aborts when any failed, and otherwise
enters the processing branch and composes the encoded body. -/
def contactSubmitHandler (nameV emailV messageV : List Char) : ContactSubmit :=
  let rN := validateField nameV contactNameRules
  let rE := validateField emailV contactEmailRules
  let rM := validateField messageV contactMessageRules
  if rN.1 && rE.1 && rM.1 then
    { nameStatus := rN.2, emailStatus := rE.2, messageStatus := rM.2
    , processing := true
    , focusTarget := none
    , composedBody := some (encodeURIComponent (contactBody nameV emailV messageV)) }
  else
    { nameStatus := rN.2, emailStatus := rE.2, messageStatus := rM.2
    , processing := false
    , focusTarget := firstInvalid [rN.2, rE.2, rM.2]
    , composedBody := none }

/-- The observable outcome of one quote-form submit event (the additional
details field has no validation rule and is only read when composing). -/
structure QuoteSubmit where
  typeStatus : FieldState
  portStatus : FieldState
  nameStatus : FieldState
  phoneStatus : FieldState
  emailStatus : FieldState
  processing : Bool
  focusTarget : Option Nat
  composedBody : Option (List Char)
  deriving Repr, DecidableEq

/-- The quote form's submit handler: validates its five ruled fields the same
way, then composes `quoteBody` (with the `details.value || 'N/A'`
substitution). For the two `select` fields the displayed option text used in
the body (`type.options[type.selectedIndex].text`) is modelled by the same
string as the validated `value`. -/
def quoteSubmitHandler (typeV portV nameV phoneV emailV detailsV : List Char) :
    QuoteSubmit :=
  let rT := validateField typeV quoteTypeRules
  let rP := validateField portV quotePortRules
  let rN := validateField nameV quoteNameRules
  let rPh := validateField phoneV quotePhoneRules
  let rE := validateField emailV quoteEmailRules
  if rT.1 && rP.1 && rN.1 && rPh.1 && rE.1 then
    { typeStatus := rT.2, portStatus := rP.2, nameStatus := rN.2
    , phoneStatus := rPh.2, emailStatus := rE.2
    , processing := true
    , focusTarget := none
    , composedBody :=
        some (encodeURIComponent (quoteBody typeV portV nameV phoneV emailV detailsV)) }
  else
    { typeStatus := rT.2, portStatus := rP.2, nameStatus := rN.2
    , phoneStatus := rPh.2, emailStatus := rE.2
    , processing := false
    , focusTarget := firstInvalid [rT.2, rP.2, rN.2, rPh.2, rE.2]
    , composedBody := none }

end FormValidation

namespace FormValidation

theorem jsTrim_eq_rdrop (s : List Char) :
    jsTrim s = List.rdropWhile isWs (List.dropWhile isWs s) := rfl

theorem jsTrim_idem (s : List Char) : jsTrim (jsTrim s) = jsTrim s := by
  rw [jsTrim_eq_rdrop, jsTrim_eq_rdrop]
  have hdrop : List.dropWhile isWs (List.rdropWhile isWs (List.dropWhile isWs s))
      = List.rdropWhile isWs (List.dropWhile isWs s) := by
    obtain ⟨u, hu⟩ := List.dropWhile_suffix (l := (List.dropWhile isWs s).reverse) isWs
    have hsplit : List.dropWhile isWs s
        = List.rdropWhile isWs (List.dropWhile isWs s) ++ u.reverse := by
      rw [List.rdropWhile]
      calc List.dropWhile isWs s
          = (List.dropWhile isWs s).reverse.reverse := by rw [List.reverse_reverse]
        _ = (u ++ List.dropWhile isWs (List.dropWhile isWs s).reverse).reverse := by
            rw [hu]
        _ = (List.dropWhile isWs (List.dropWhile isWs s).reverse).reverse
              ++ u.reverse := by rw [List.reverse_append]
    cases hR : List.rdropWhile isWs (List.dropWhile isWs s) with
    | nil => rfl
    | cons x xs =>
      rw [hR] at hsplit
      have hlen : 0 < (List.dropWhile isWs s).length := by
        rw [hsplit]
        simp
      have hhead := List.dropWhile_get_zero_not (p := isWs) s hlen
      have hx : (List.dropWhile isWs s).get ⟨0, hlen⟩ = x := by
        simp only [hsplit, List.get_eq_getElem, List.cons_append, List.getElem_cons_zero]
      rw [hx] at hhead
      rw [List.dropWhile_cons_of_neg hhead]
  rw [hdrop, List.rdropWhile_idempotent]

/-- The first guard of `validateField`: a required rule is present and the
trimmed value is empty. -/
def requiredFails (value : List Char) (rules : Rules) : Prop :=
  rules.required.isSome = true ∧ jsTrim value = []

/-- The second guard of `validateField`: the trimmed value is nonempty and
the pattern rule is present and rejects it. -/
def patternFails (value : List Char) (rules : Rules) : Prop :=
  jsTrim value ≠ [] ∧ patFails rules.pattern (jsTrim value) = true

/-- The third guard of `validateField`: the trimmed value is nonempty, a
minimum length is set, and the value is shorter. -/
def minLengthFails (value : List Char) (rules : Rules) : Prop :=
  jsTrim value ≠ [] ∧ rules.minLength ≠ 0 ∧ (jsTrim value).length < rules.minLength

end FormValidation

/-- Claim C3: `validateField` trims the value and applies the checks in the
fixed order required-ness, pattern, minimum length, returning `false` with
the failing rule's message at the first failure, and returning `true` with
the message cleared exactly when no rule fails; on the contact form,
`name='Jane'`, `email='not-an-email'`, `message='hi'` produce the email
pattern message and the message-length message. -/
theorem validateField_first_failure_order :
    (∀ (value : List Char) (rules : FormValidation.Rules),
      FormValidation.validateField value rules
          = FormValidation.validateField (FormValidation.jsTrim value) rules
      ∧ (FormValidation.requiredFails value rules →
          FormValidation.validateField value rules
            = (false, FormValidation.showError (rules.required.getD "")))
      ∧ (¬ FormValidation.requiredFails value rules →
          FormValidation.patternFails value rules →
          FormValidation.validateField value rules
            = (false, FormValidation.showError rules.patternError))
      ∧ (¬ FormValidation.requiredFails value rules →
          ¬ FormValidation.patternFails value rules →
          FormValidation.minLengthFails value rules →
          FormValidation.validateField value rules
            = (false, FormValidation.showError rules.minLengthError))
      ∧ (FormValidation.validateField value rules
            = (true, FormValidation.showError "")
          ↔ ¬ FormValidation.requiredFails value rules
            ∧ ¬ FormValidation.patternFails value rules
            ∧ ¬ FormValidation.minLengthFails value rules))
    ∧ FormValidation.validateField "not-an-email".data FormValidation.contactEmailRules
        = (false, FormValidation.showError "Please enter a valid email address")
    ∧ FormValidation.validateField "hi".data FormValidation.contactMessageRules
        = (false, FormValidation.showError "Message must be at least 10 characters")
    ∧ FormValidation.validateField "Jane".data FormValidation.contactNameRules
        = (true, FormValidation.showError "") := by
  refine ⟨fun value rules => ⟨?_, ?_, ?_, ?_, ?_⟩, by decide, by decide, by decide⟩
  · unfold FormValidation.validateField
    rw [FormValidation.jsTrim_idem]
  · intro h
    rw [FormValidation.requiredFails] at h
    unfold FormValidation.validateField
    rw [if_pos h]
  · intro h1 h2
    rw [FormValidation.requiredFails] at h1
    rw [FormValidation.patternFails] at h2
    unfold FormValidation.validateField
    rw [if_neg h1, if_pos h2]
  · intro h1 h2 h3
    rw [FormValidation.requiredFails] at h1
    rw [FormValidation.patternFails] at h2
    rw [FormValidation.minLengthFails] at h3
    unfold FormValidation.validateField
    rw [if_neg h1, if_neg h2, if_pos h3]
  · unfold FormValidation.validateField FormValidation.requiredFails
      FormValidation.patternFails FormValidation.minLengthFails
    constructor
    · intro h
      split_ifs at h with c1 c2 c3
      · exact absurd h (by simp)
      · exact absurd h (by simp)
      · exact absurd h (by simp)
      · exact ⟨c1, c2, c3⟩
    · rintro ⟨n1, n2, n3⟩
      rw [if_neg n1, if_neg n2, if_neg n3]

theorem validateField_first_failure_order_witness :
    FormValidation.validateField "   ".data FormValidation.contactNameRules
      = (false, FormValidation.showError "Please enter your name") := by
  have h := (validateField_first_failure_order.1 "   ".data
    FormValidation.contactNameRules).2.1
    (by constructor <;> decide)
  exact h.trans (by decide)

/-- Claim C2: each form's submit handler evaluates `validateField` on every
field in its field set (every field's status reflects its own validation, so
all errors surface in the same submission attempt); the processing branch is
entered exactly when every field is valid; and on failure focus lands on the
first invalid field in field order. -/
theorem submit_validates_all_fields :
    (∀ nameV emailV messageV : List Char,
      ((FormValidation.contactSubmitHandler nameV emailV messageV).nameStatus
          = (FormValidation.validateField nameV FormValidation.contactNameRules).2
        ∧ (FormValidation.contactSubmitHandler nameV emailV messageV).emailStatus
          = (FormValidation.validateField emailV FormValidation.contactEmailRules).2
        ∧ (FormValidation.contactSubmitHandler nameV emailV messageV).messageStatus
          = (FormValidation.validateField messageV FormValidation.contactMessageRules).2)
      ∧ ((FormValidation.contactSubmitHandler nameV emailV messageV).processing = true
          ↔ (FormValidation.validateField nameV FormValidation.contactNameRules).1 = true
            ∧ (FormValidation.validateField emailV FormValidation.contactEmailRules).1 = true
            ∧ (FormValidation.validateField messageV
                FormValidation.contactMessageRules).1 = true)
      ∧ ((FormValidation.contactSubmitHandler nameV emailV messageV).processing = false →
          (FormValidation.contactSubmitHandler nameV emailV messageV).focusTarget
            = (if (FormValidation.validateField nameV
                  FormValidation.contactNameRules).1 = false then some 0
               else if (FormValidation.validateField emailV
                  FormValidation.contactEmailRules).1 = false then some 1
               else some 2)))
    ∧ (∀ typeV portV nameV phoneV emailV detailsV : List Char,
      ((FormValidation.quoteSubmitHandler typeV portV nameV phoneV emailV
            detailsV).typeStatus
          = (FormValidation.validateField typeV FormValidation.quoteTypeRules).2
        ∧ (FormValidation.quoteSubmitHandler typeV portV nameV phoneV emailV
            detailsV).portStatus
          = (FormValidation.validateField portV FormValidation.quotePortRules).2
        ∧ (FormValidation.quoteSubmitHandler typeV portV nameV phoneV emailV
            detailsV).nameStatus
          = (FormValidation.validateField nameV FormValidation.quoteNameRules).2
        ∧ (FormValidation.quoteSubmitHandler typeV portV nameV phoneV emailV
            detailsV).phoneStatus
          = (FormValidation.validateField phoneV FormValidation.quotePhoneRules).2
        ∧ (FormValidation.quoteSubmitHandler typeV portV nameV phoneV emailV
            detailsV).emailStatus
          = (FormValidation.validateField emailV FormValidation.quoteEmailRules).2)
      ∧ ((FormValidation.quoteSubmitHandler typeV portV nameV phoneV emailV
            detailsV).processing = true
          ↔ (FormValidation.validateField typeV FormValidation.quoteTypeRules).1 = true
            ∧ (FormValidation.validateField portV FormValidation.quotePortRules).1 = true
            ∧ (FormValidation.validateField nameV FormValidation.quoteNameRules).1 = true
            ∧ (FormValidation.validateField phoneV
                FormValidation.quotePhoneRules).1 = true
            ∧ (FormValidation.validateField emailV
                FormValidation.quoteEmailRules).1 = true)
      ∧ ((FormValidation.quoteSubmitHandler typeV portV nameV phoneV emailV
            detailsV).processing = false →
          (FormValidation.quoteSubmitHandler typeV portV nameV phoneV emailV
            detailsV).focusTarget
            = (if (FormValidation.validateField typeV
                  FormValidation.quoteTypeRules).1 = false then some 0
               else if (FormValidation.validateField portV
                  FormValidation.quotePortRules).1 = false then some 1
               else if (FormValidation.validateField nameV
                  FormValidation.quoteNameRules).1 = false then some 2
               else if (FormValidation.validateField phoneV
                  FormValidation.quotePhoneRules).1 = false then some 3
               else some 4))) := by
  constructor
  · intro nameV emailV messageV
    have aN := FormValidation.validateField_ariaInvalid nameV
      FormValidation.contactNameRules (by simp [FormValidation.contactNameRules])
      (by simp [FormValidation.contactNameRules])
      (by simp [FormValidation.contactNameRules])
    have aE := FormValidation.validateField_ariaInvalid emailV
      FormValidation.contactEmailRules (by simp [FormValidation.contactEmailRules])
      (by simp [FormValidation.contactEmailRules])
      (by simp [FormValidation.contactEmailRules])
    have aM := FormValidation.validateField_ariaInvalid messageV
      FormValidation.contactMessageRules (by simp [FormValidation.contactMessageRules])
      (by simp [FormValidation.contactMessageRules])
      (by simp [FormValidation.contactMessageRules])
    cases hbN : (FormValidation.validateField nameV FormValidation.contactNameRules).1 <;>
      cases hbE : (FormValidation.validateField emailV
        FormValidation.contactEmailRules).1 <;>
        cases hbM : (FormValidation.validateField messageV
          FormValidation.contactMessageRules).1 <;>
          rw [hbN] at aN <;> rw [hbE] at aE <;> rw [hbM] at aM <;>
            simp [FormValidation.contactSubmitHandler, FormValidation.firstInvalid,
              List.findIdx?, hbN, hbE, hbM, aN, aE, aM]
  · intro typeV portV nameV phoneV emailV detailsV
    have aT := FormValidation.validateField_ariaInvalid typeV
      FormValidation.quoteTypeRules (by simp [FormValidation.quoteTypeRules])
      (by simp [FormValidation.quoteTypeRules])
      (by simp [FormValidation.quoteTypeRules])
    have aP := FormValidation.validateField_ariaInvalid portV
      FormValidation.quotePortRules (by simp [FormValidation.quotePortRules])
      (by simp [FormValidation.quotePortRules])
      (by simp [FormValidation.quotePortRules])
    have aN := FormValidation.validateField_ariaInvalid nameV
      FormValidation.quoteNameRules (by simp [FormValidation.quoteNameRules])
      (by simp [FormValidation.quoteNameRules])
      (by simp [FormValidation.quoteNameRules])
    have aPh := FormValidation.validateField_ariaInvalid phoneV
      FormValidation.quotePhoneRules (by simp [FormValidation.quotePhoneRules])
      (by simp [FormValidation.quotePhoneRules])
      (by simp [FormValidation.quotePhoneRules])
    have aE := FormValidation.validateField_ariaInvalid emailV
      FormValidation.quoteEmailRules (by simp [FormValidation.quoteEmailRules])
      (by simp [FormValidation.quoteEmailRules])
      (by simp [FormValidation.quoteEmailRules])
    cases hbT : (FormValidation.validateField typeV FormValidation.quoteTypeRules).1 <;>
      cases hbP : (FormValidation.validateField portV FormValidation.quotePortRules).1 <;>
        cases hbN : (FormValidation.validateField nameV
          FormValidation.quoteNameRules).1 <;>
          cases hbPh : (FormValidation.validateField phoneV
            FormValidation.quotePhoneRules).1 <;>
            cases hbE : (FormValidation.validateField emailV
              FormValidation.quoteEmailRules).1 <;>
              rw [hbT] at aT <;> rw [hbP] at aP <;> rw [hbN] at aN <;>
                rw [hbPh] at aPh <;> rw [hbE] at aE <;>
                  simp [FormValidation.quoteSubmitHandler, FormValidation.firstInvalid,
                    List.findIdx?, hbT, hbP, hbN, hbPh, hbE, aT, aP, aN, aPh, aE]

theorem submit_validates_all_fields_witness :
    (FormValidation.contactSubmitHandler "Jane".data "not-an-email".data
      "hi".data).focusTarget = some 1 := by
  have h := (submit_validates_all_fields.1 "Jane".data "not-an-email".data
    "hi".data).2.2 (by decide)
  exact h.trans (by decide)

/-- Claim C9: when a rule set has no required rule and the value trims to
empty, `validateField` passes and clears any prior message — the pattern and
minimum-length guards only fire on nonempty trimmed values. -/
theorem optional_field_whitespace_passes (value : List Char)
    (rules : FormValidation.Rules) (h1 : rules.required = none)
    (h2 : FormValidation.jsTrim value = []) :
    FormValidation.validateField value rules = (true, FormValidation.showError "") := by
  unfold FormValidation.validateField
  rw [if_neg (by simp [h1]), if_neg (by simp [h2]), if_neg (by simp [h2])]

theorem optional_field_whitespace_passes_witness :
    FormValidation.validateField "   ".data
      { pattern := some FormValidation.emailTest
      , patternError := "Please enter a valid email address"
      , minLength := 9
      , minLengthError := "too short" }
      = (true, FormValidation.showError "") :=
  optional_field_whitespace_passes "   ".data _ rfl (by decide)

/-- Claim C7 (amended): the carousel module skips initialization exactly when
the track, either control, or a nonempty item list is missing; the contact
form module skips exactly when the form, any of its three named fields, the
submit button or the success element is missing; the quick-quote module skips
exactly when the form, the five ruled fields or the submit button is missing
— the `quote-details` element is queried but not guarded. -/
theorem missing_element_skips_init :
    (∀ d : Carousel.Dom,
      Carousel.init d = none
        ↔ ¬(d.track = true ∧ d.prevBtn = true ∧ d.nextBtn = true ∧ 0 < d.itemCount))
    ∧ (∀ d : FormValidation.ContactDom,
      FormValidation.initContactForm d = none
        ↔ ¬(d.form = true ∧ d.nameField = true ∧ d.emailField = true
            ∧ d.messageField = true ∧ d.submitBtn = true ∧ d.successEl = true))
    ∧ (∀ d : FormValidation.QuoteDom,
      FormValidation.initQuickQuoteForm d = none
        ↔ ¬(d.form = true ∧ d.typeField = true ∧ d.portField = true
            ∧ d.nameField = true ∧ d.phoneField = true ∧ d.emailField = true
            ∧ d.submitBtn = true)) := by
  refine ⟨fun d => ?_, fun d => ?_, fun d => ?_⟩
  · rcases d with ⟨t, p, n, c⟩
    cases t <;> cases p <;> cases n <;>
      simp [Carousel.init, Carousel.initialState]
  · rcases d with ⟨f, n, e, m, sb, su⟩
    cases f <;> cases n <;> cases e <;> cases m <;> cases sb <;> cases su <;>
      simp [FormValidation.initContactForm]
  · rcases d with ⟨f, t, p, n, ph, e, de, sb⟩
    cases f <;> cases t <;> cases p <;> cases n <;> cases ph <;> cases e <;> cases sb <;>
      simp [FormValidation.initQuickQuoteForm]

theorem missing_element_skips_init_counterexample :
    FormValidation.initQuickQuoteForm
      { form := true, typeField := true, portField := true, nameField := true
      , phoneField := true, emailField := true, detailsField := false
      , submitBtn := true } = some ()
    ∧ FormValidation.detailsValueRead false "anything".data = none :=
  ⟨by decide, by decide⟩

/-- `details.value || 'N/A'` is the only value substitution in the quote
body: the details block becomes `'N/A'` exactly when the field is empty. -/
theorem quoteBody_eq_verbatim (typeV portV nameV phoneV emailV detailsV : List Char)
    (hd : detailsV ≠ []) :
    FormValidation.quoteBody typeV portV nameV phoneV emailV detailsV
      = FormValidation.quoteBodyVerbatim typeV portV nameV phoneV emailV detailsV := by
  unfold FormValidation.quoteBody FormValidation.quoteBodyVerbatim
  rw [if_neg hd]

/-- Claim C4 (counterexample): a quote submission with the details field left
empty reaches the fallback with a body whose decoding shows the literal
`'N/A'`, not the entered (empty) details — the decoded copy text is not an
exact reproduction of the entered quote fields. -/
theorem fallback_roundtrip_counterexample :
    (FormValidation.quoteSubmitHandler "Import Clearance".data "Mundra".data
        "Jo".data "12345".data "a@b.co".data []).composedBody
      = some (FormValidation.encodeURIComponent
          (FormValidation.quoteBody "Import Clearance".data "Mundra".data "Jo".data
            "12345".data "a@b.co".data []))
    ∧ FormValidation.decodeURIComponent
        (FormValidation.encodeURIComponent
          (FormValidation.quoteBody "Import Clearance".data "Mundra".data "Jo".data
            "12345".data "a@b.co".data []))
      ≠ some (FormValidation.quoteBodyVerbatim "Import Clearance".data "Mundra".data
          "Jo".data "12345".data "a@b.co".data []) := by
  constructor
  · rfl
  · rw [FormValidation.decodeURIComponent_encodeURIComponent]
    simp only [ne_eq, Option.some.injEq]
    decide

/-- Claim C4 (amended): every contact-form submission that reaches the
fallback carries a body that decodes exactly to the entered name, email and
message, newline-for-newline; every quote-form submission with a nonempty
details field likewise decodes to all six entered values verbatim; when the
details field is empty the decoded text substitutes `'N/A'` for it. -/
theorem fallback_roundtrip :
    (∀ nameV emailV messageV encBody : List Char,
      (FormValidation.contactSubmitHandler nameV emailV messageV).composedBody
          = some encBody →
      FormValidation.decodeURIComponent encBody
        = some (FormValidation.contactBody nameV emailV messageV))
    ∧ (∀ typeV portV nameV phoneV emailV detailsV encBody : List Char,
      detailsV ≠ [] →
      (FormValidation.quoteSubmitHandler typeV portV nameV phoneV emailV
          detailsV).composedBody = some encBody →
      FormValidation.decodeURIComponent encBody
        = some (FormValidation.quoteBodyVerbatim typeV portV nameV phoneV emailV
            detailsV)) := by
  constructor
  · intro nameV emailV messageV encBody h
    unfold FormValidation.contactSubmitHandler at h
    dsimp only at h
    split at h
    · simp only [Option.some.injEq] at h
      rw [← h, FormValidation.decodeURIComponent_encodeURIComponent]
    · exact absurd h (by simp)
  · intro typeV portV nameV phoneV emailV detailsV encBody hd h
    unfold FormValidation.quoteSubmitHandler at h
    dsimp only at h
    split at h
    · simp only [Option.some.injEq] at h
      rw [← h, FormValidation.decodeURIComponent_encodeURIComponent,
        quoteBody_eq_verbatim typeV portV nameV phoneV emailV detailsV hd]
    · exact absurd h (by simp)

theorem fallback_roundtrip_witness :
    FormValidation.decodeURIComponent (FormValidation.encodeURIComponent
      (FormValidation.quoteBody "Export".data "Chennai".data "Ana".data "9".data
        "a@b.co".data "Fragile cargo".data))
    = some (FormValidation.quoteBodyVerbatim "Export".data "Chennai".data "Ana".data
        "9".data "a@b.co".data "Fragile cargo".data) :=
  fallback_roundtrip.2 "Export".data "Chennai".data "Ana".data "9".data
    "a@b.co".data "Fragile cargo".data _ (by decide) rfl

/-- Claim C10: the quote body reproduces every field verbatim except the
additional-details block, which becomes the literal `'N/A'` exactly when the
details value is empty; consequently the composed body for an empty-details
submission differs from a character-for-character reproduction of the
entries. -/
theorem quote_details_na_substitution :
    (∀ typeV portV nameV phoneV emailV detailsV : List Char, detailsV ≠ [] →
      FormValidation.quoteBody typeV portV nameV phoneV emailV detailsV
        = FormValidation.quoteBodyVerbatim typeV portV nameV phoneV emailV detailsV)
    ∧ (∀ typeV portV nameV phoneV emailV : List Char,
      FormValidation.quoteBody typeV portV nameV phoneV emailV []
        = FormValidation.quoteBodyVerbatim typeV portV nameV phoneV emailV "N/A".data)
    ∧ FormValidation.quoteBody "Import".data "Kochi".data "Raj".data "1".data
        "r@x.in".data []
      ≠ FormValidation.quoteBodyVerbatim "Import".data "Kochi".data "Raj".data
        "1".data "r@x.in".data [] := by
  refine ⟨quoteBody_eq_verbatim, fun typeV portV nameV phoneV emailV => ?_, by decide⟩
  unfold FormValidation.quoteBody FormValidation.quoteBodyVerbatim
  rw [if_pos rfl]

theorem quote_details_na_substitution_witness :
    FormValidation.quoteBody "Import".data "Kochi".data "Raj".data "1".data
      "r@x.in".data "note".data
    = FormValidation.quoteBodyVerbatim "Import".data "Kochi".data "Raj".data
      "1".data "r@x.in".data "note".data :=
  quote_details_na_substitution.1 "Import".data "Kochi".data "Raj".data "1".data
    "r@x.in".data "note".data (by decide)

namespace FormValidation

/-- The observable outcome of one click on the fallback panel's copy button:
the button label right after the clipboard promise settles, the label after
the 2-second timer, whether `console.error` was called, and whether the
manual-selection fallback (`copyBox.focus()` + select-all) ran. -/
structure CopyOutcome where
  labelAfterClick : String
  labelAfter2s : String
  errorLogged : Bool
  manualSelection : Bool
  deriving Repr, DecidableEq

/-- The copy button's click handler: on clipboard success the label becomes
`'Copied!'` and a 2000ms timer restores the original text; on failure the
error goes to `console.error` and the text block is focused and selected for
manual copying. -/
def copyButtonClick (clipboardOk : Bool) (label : String) : CopyOutcome :=
  if clipboardOk then
    { labelAfterClick := "Copied!", labelAfter2s := label
    , errorLogged := false, manualSelection := false }
  else
    { labelAfterClick := label, labelAfter2s := label
    , errorLogged := true, manualSelection := true }

end FormValidation

/-- Claim C8: on clipboard-write success the copy button shows `'Copied!'`
and reverts to its original label after 2 seconds with nothing logged; on
failure the error is logged to the diagnostic console and the text block is
selected for manual copy, with the label untouched. -/
theorem copy_button_feedback (label : String) :
    (∀ ok : Bool, ok = true →
      FormValidation.copyButtonClick ok label
        = { labelAfterClick := "Copied!", labelAfter2s := label
          , errorLogged := false, manualSelection := false })
    ∧ (∀ ok : Bool, ok = false →
      FormValidation.copyButtonClick ok label
        = { labelAfterClick := label, labelAfter2s := label
          , errorLogged := true, manualSelection := true }) := by
  constructor
  · rintro _ rfl
    rfl
  · rintro _ rfl
    rfl

theorem copy_button_feedback_witness :
    FormValidation.copyButtonClick true "Copy to Clipboard"
      = { labelAfterClick := "Copied!", labelAfter2s := "Copy to Clipboard"
        , errorLogged := false, manualSelection := false } :=
  (copy_button_feedback "Copy to Clipboard").1 true rfl
